import Mathlib

/-!
Shallow embedding of `src/index.ts` of statewalker/webrun-puppeteer:
the `ExtensionDebuggerTransport` class, a puppeteer `ConnectionTransport`
adapter over the `chrome.debugger` host API.

Modelling conventions:
* JSON values are the inductive `Json`; a TypeScript field that can be
  `undefined` (and is therefore dropped by `JSON.stringify`) is an
  `Option` in the corresponding structure, `none` meaning absent.
* The adapter's externally observable behaviour is a `List Output`:
  invocations of the `onmessage` callback (tagged immediate vs paced),
  invocations of the `onclose` callback, and the scheduling of the
  deferred `close` in the `Target.closeTarget` branch.  List order is
  the program order of the side effects in the source.
* Asynchronous host calls (`attach`, `detach`, `sendCommand`,
  `getTargets`) are parameters giving their single resolution or
  rejection, since the facade is external.
-/

/-- JSON values, used for opaque CDP `params` and `result` payloads. -/
inductive Json where
  | null : Json
  | bool (b : Bool) : Json
  | num (n : Int) : Json
  | str (s : String) : Json
  | arr (elems : List Json) : Json
  | obj (fields : List (String × Json)) : Json

/-- chrome.debugger.TargetInfo, as returned by the facade's getTargets. -/
structure TargetInfo where
  attached : Bool
  extensionId : Option String
  faviconUrl : Option String
  id : String
  tabId : Option Nat
  title : String
  ttype : String
  url : String
deriving DecidableEq, Repr

/-- The descriptor built by `_getTargetInfo`: the TargetInfo spread plus
the synthesized `targetId` (equal to `id`) and `canAccessOpener` forced
to `false`. -/
structure TargetDescriptor extends TargetInfo where
  targetId : String
  canAccessOpener : Bool
deriving DecidableEq, Repr

/-- CDPCommand of the source: a parsed Command Envelope. -/
structure CDPCommand where
  id : Int
  method : String
  params : Json
  sessionId : Option String

/-- The `error` object of a CDPCommandResponse; `message` is absent when
the thrown value carried none. -/
structure CDPError where
  message : Option String
deriving DecidableEq, Repr

/-- CDPCommandResponse of the source: Command Envelope fields plus the
optional `error` and `result` fields (`none` = dropped by
JSON.stringify). -/
structure CDPCommandResponse where
  id : Int
  method : String
  params : Json
  sessionId : Option String
  error : Option CDPError
  result : Option Json

/-- CDPEvent of the source: an Event Envelope. -/
structure CDPEvent where
  method : String
  params : Json
  sessionId : Option String

/-- A message handed to the `onmessage` callback (the source hands over
`JSON.stringify` of one of these two shapes). -/
inductive Message where
  | resp (r : CDPCommandResponse)
  | ev (e : CDPEvent)

/-- One externally observable side effect of the adapter. -/
inductive Output where
  | deliverPaced (m : Message)
  | deliverNow (m : Message)
  | scheduleClose
  | closeNotify

/-- The adapter's state after construction.  `onmessage` / `onclose`
record whether the respective callback has been set by the client
(the source declares them as optional properties). -/
structure ExtensionDebuggerTransport where
  target : TargetDescriptor
  debugee : Option Nat
  sessionId : String
  delay : Nat
  onmessage : Bool
  onclose : Bool

/-- Helper for JSON.stringify dropping `undefined`-valued fields. -/
def optJsonField (key : String) : Option Json → List (String × Json)
  | none => []
  | some v => [(key, v)]

/-- JSON serialization of a TargetDescriptor, as embedded in synthetic
event params. -/
def TargetDescriptor.toJson (t : TargetDescriptor) : Json :=
  .obj ([("attached", .bool t.attached)]
    ++ optJsonField "extensionId" (t.extensionId.map .str)
    ++ optJsonField "faviconUrl" (t.faviconUrl.map .str)
    ++ [("id", .str t.id)]
    ++ optJsonField "tabId" (t.tabId.map fun n => .num n)
    ++ [("title", .str t.title), ("type", .str t.ttype), ("url", .str t.url),
        ("targetId", .str t.targetId), ("canAccessOpener", .bool t.canAccessOpener)])

namespace ExtensionDebuggerTransport

/-- The `_emit` method: invoke `onmessage` (if set) immediately with the
serialized event. -/
def _emit (t : ExtensionDebuggerTransport) (event : CDPEvent) : List Output :=
  if t.onmessage then [.deliverNow (.ev event)] else []

/-- The `_delaySend` method: schedule the serialized response to be
handed to `onmessage` (if it is set when the timer fires) after
`delay` ms. -/
def _delaySend (t : ExtensionDebuggerTransport) (response : CDPCommandResponse) :
    List Output :=
  if t.onmessage then [.deliverPaced (.resp response)] else []

/-- The event built inside `_emitTargetCreated`.  The source sets only
`method` and `params`; the envelope's `sessionId` stays `undefined`. -/
def targetCreatedEvent (t : ExtensionDebuggerTransport) : CDPEvent :=
  { method := "Target.targetCreated",
    params := .obj [("targetInfo", t.target.toJson)],
    sessionId := none }

/-- The `_emitTargetCreated` method. -/
def _emitTargetCreated (t : ExtensionDebuggerTransport) : List Output :=
  t._emit t.targetCreatedEvent

/-- The event built inside `_emitTargetAttached`; `sessionId` and
`waitingForDebugger` live inside `params`, the envelope has none. -/
def attachedToTargetEvent (t : ExtensionDebuggerTransport) : CDPEvent :=
  { method := "Target.attachedToTarget",
    params := .obj [("targetInfo", t.target.toJson),
                    ("sessionId", .str t.sessionId),
                    ("waitingForDebugger", .bool false)],
    sessionId := none }

/-- The `_emitTargetAttached` method. -/
def _emitTargetAttached (t : ExtensionDebuggerTransport) : List Output :=
  t._emit t.attachedToTargetEvent

/-- The event built inside `_emitTargetDetached`; again `sessionId`
appears only inside `params`. -/
def detachedFromTargetEvent (t : ExtensionDebuggerTransport) : CDPEvent :=
  { method := "Target.detachedFromTarget",
    params := .obj [("targetId", .str t.target.id),
                    ("sessionId", .str t.sessionId)],
    sessionId := none }

/-- The `_emitTargetDetached` method. -/
def _emitTargetDetached (t : ExtensionDebuggerTransport) : List Output :=
  t._emit t.detachedFromTargetEvent

/-- The `_closeTarget` method: emit the detach event, then invoke
`onclose` if it is set.  There is no guard against repeated calls. -/
def _closeTarget (t : ExtensionDebuggerTransport) : List Output :=
  t._emitTargetDetached ++ (if t.onclose then [.closeNotify] else [])

/-- The response object `_handleTargetCommand` starts from: the spread
of the command, `error` set to `undefined` (dropped on stringify) and
`result` initialised to the empty object. -/
def _baseResponse (command : CDPCommand) : CDPCommandResponse :=
  { id := command.id, method := command.method, params := command.params,
    sessionId := command.sessionId, error := none, result := some (.obj []) }

/-- The `_handleTargetCommand` method: per-method synthetic result,
side effects in source program order, then `_delaySend` of the
response. -/
def _handleTargetCommand (t : ExtensionDebuggerTransport) (command : CDPCommand) :
    List Output :=
  match command.method with
  | "Target.getBrowserContexts" =>
      t._delaySend { _baseResponse command with
        result := some (.obj [("browserContextIds", .arr [])]) }
  | "Target.setDiscoverTargets" =>
      t._emitTargetCreated
        ++ t._delaySend { _baseResponse command with result := some .null }
  | "Target.attachToTarget" =>
      t._emitTargetAttached
        ++ t._delaySend { _baseResponse command with
             result := some (.obj [("sessionId", .str t.sessionId)]) }
  | "Target.activateTarget" =>
      t._delaySend { _baseResponse command with result := some .null }
  | "Target.closeTarget" =>
      [.scheduleClose]
        ++ t._delaySend { _baseResponse command with
             result := some (.obj [("success", .bool true)]) }
  | _ => t._delaySend (_baseResponse command)

/-- The list `targetCommands` of `send`. -/
def targetCommands : List String :=
  ["Target.getBrowserContexts",
   "Target.setDiscoverTargets",
   "Target.attachToTarget",
   "Target.activateTarget",
   "Target.closeTarget"]

/-- Outcome of the facade's `sendCommand` for one forwarded command:
resolution with a result object, or rejection with a thrown value whose
optional `message` the catch block reads. -/
inductive SendCommandResult where
  | ok (result : Json)
  | err (message : Option String)

/-- The `send` method, applied to the parsed command.  Emulated
`Target.*` methods are handled locally; anything else is forwarded and
its resolution or rejection wrapped into a response. -/
def send (t : ExtensionDebuggerTransport) (command : CDPCommand)
    (facade : SendCommandResult) : List Output :=
  if targetCommands.contains command.method then
    t._handleTargetCommand command
  else
    match facade with
    | .ok result =>
        t._delaySend { id := command.id, method := command.method,
                       params := command.params, sessionId := command.sessionId,
                       error := none, result := some result }
    | .err message =>
        t._delaySend { id := command.id, method := command.method,
                       params := command.params, sessionId := command.sessionId,
                       error := some { message := message }, result := none }

/-- The `close` method: await the facade's detach, then `_closeTarget`.
A detach rejection is not caught, so it propagates and the teardown
does not run. -/
def close (t : ExtensionDebuggerTransport) (detachResult : Except String Unit) :
    Except String (List Output) :=
  match detachResult with
  | .error e => .error e
  | .ok _ => .ok t._closeTarget

/-- The `onEvent` listener registered in the constructor: build the
event envelope stamped with the session id, and emit it only when the
source tab matches the adapter's target tab. -/
def onEventListener (t : ExtensionDebuggerTransport) (sourceTabId : Option Nat)
    (method : String) (params : Json) : List Output :=
  let event : CDPEvent :=
    { method := method, params := params, sessionId := some t.sessionId }
  if sourceTabId = t.target.tabId then t._emit event else []

/-- The `onDetach` listener registered in the constructor: run
`_closeTarget` only when the source tab matches. -/
def onDetachListener (t : ExtensionDebuggerTransport) (sourceTabId : Option Nat) :
    List Output :=
  if sourceTabId = t.target.tabId then t._closeTarget else []

/-- The object built in the `map` of `_getTargetInfo`: the target spread
plus `targetId` set to its id and `canAccessOpener` forced false. -/
def _mapTarget (target : TargetInfo) : TargetDescriptor :=
  { toTargetInfo := target, targetId := target.id, canAccessOpener := false }

/-- The `_getTargetInfo` static method: filter the facade's target list
to attached entries of the debuggee's tab, map them to descriptors, and
take the first; throw "target not found" when there is none. -/
def _getTargetInfo (targets : List TargetInfo) (debugeeTabId : Option Nat) :
    Except String TargetDescriptor :=
  match (targets.filter fun target =>
      target.attached && target.tabId == debugeeTabId).map _mapTarget with
  | [] => .error "target not found"
  | target :: _ => .ok target

/-- The constructor: session id set to the target's id, debuggee tab
taken from the target, default pacing delay 0.04 * 1000 ms, callbacks
initially unset. -/
def construct (target : TargetDescriptor) : ExtensionDebuggerTransport :=
  { target := target, debugee := target.tabId, sessionId := target.id,
    delay := 40, onmessage := false, onclose := false }

/-- The `create` static method: attach (a rejection propagates
unmodified), resolve the target descriptor, construct the transport.
The `_initialize` capability check mutates only the global Function
constructor and is not modelled. -/
def create (attachResult : Except String Unit) (targets : List TargetInfo)
    (tabId : Nat) : Except String ExtensionDebuggerTransport :=
  match attachResult with
  | .error e => .error e
  | .ok _ =>
      match _getTargetInfo targets (some tabId) with
      | .error e => .error e
      | .ok target => .ok (construct target)

end ExtensionDebuggerTransport

open ExtensionDebuggerTransport

/-- Message payloads actually handed to the `onmessage` callback in an
output trace, in delivery-scheduling order. -/
def deliveredMessages : List Output → List Message
  | [] => []
  | .deliverPaced m :: rest => m :: deliveredMessages rest
  | .deliverNow m :: rest => m :: deliveredMessages rest
  | .scheduleClose :: rest => deliveredMessages rest
  | .closeNotify :: rest => deliveredMessages rest

/-- Top-level `sessionId` field of a delivered message. -/
def messageSessionId : Message → Option String
  | .resp r => r.sessionId
  | .ev e => e.sessionId

/-- Number of delivered Event Envelopes with the given method. -/
def countEventMethod (method : String) (outs : List Output) : Nat :=
  (deliveredMessages outs).countP fun m =>
    match m with
    | .ev e => e.method == method
    | .resp _ => false

/-- Number of `onclose` callback invocations in a trace. -/
def countCloseNotify (outs : List Output) : Nat :=
  outs.countP fun o =>
    match o with
    | .closeNotify => true
    | _ => false

/-- Outputs of one `close` call whose facade detach resolves. -/
def closeOutputsOk (t : ExtensionDebuggerTransport) : List Output :=
  match t.close (.ok ()) with
  | .ok outs => outs
  | .error _ => []

/-- A concrete facade target entry: tab 7, already attached, id "A1"
(the scenario of the specification). -/
def demoTargetInfo : TargetInfo :=
  { attached := true, extensionId := none, faviconUrl := none, id := "A1",
    tabId := some 7, title := "Wikipedia", ttype := "page",
    url := "https://example.com" }

/-- The adapter built from that entry, with both client callbacks set. -/
def demoTransport : ExtensionDebuggerTransport :=
  { construct (_mapTarget demoTargetInfo) with onmessage := true, onclose := true }

/-- Trace of: a `Target.closeTarget` command, then the `close` it
scheduled (facade detach resolves), then a further explicit `close`
by the client (detach again resolves). -/
def demoCloseTrace : List Output :=
  demoTransport.send
      { id := 2, method := "Target.closeTarget", params := .obj [], sessionId := none }
      (.ok .null)
    ++ closeOutputsOk demoTransport
    ++ closeOutputsOk demoTransport

/-- Every member of a `_delaySend` trace is the paced delivery of that
response. -/
theorem mem_delaySend_eq {t : ExtensionDebuggerTransport}
    {r : CDPCommandResponse} {o : Output} (h : o ∈ t._delaySend r) :
    o = .deliverPaced (.resp r) := by
  unfold ExtensionDebuggerTransport._delaySend at h
  split at h <;> simp_all

/-- Every member of an `_emit` trace is the immediate delivery of that
event. -/
theorem mem_emit_eq {t : ExtensionDebuggerTransport}
    {e : CDPEvent} {o : Output} (h : o ∈ t._emit e) :
    o = .deliverNow (.ev e) := by
  unfold ExtensionDebuggerTransport._emit at h
  split at h <;> simp_all

/-- C1: a forwarded (non-emulated) command whose facade call resolves is
answered by a single paced Response Envelope echoing the request's id,
method, params (and sessionId), with `error` absent and `result` equal
to the facade's value; a rejected call is answered by one echoing the
same fields with `error.message` the rejection's optional message and
`result` absent. -/
theorem C1_forwarded_response_envelope (t : ExtensionDebuggerTransport)
    (c : CDPCommand) (hm : t.onmessage = true)
    (hnt : targetCommands.contains c.method = false) :
    (∀ result, t.send c (.ok result) =
        [.deliverPaced (.resp
          { id := c.id, method := c.method,
            params := c.params, sessionId := c.sessionId,
            error := none, result := some result })]) ∧
    (∀ message, t.send c (.err message) =
        [.deliverPaced (.resp
          { id := c.id, method := c.method,
            params := c.params, sessionId := c.sessionId,
            error := some { message := message }, result := none })]) := by
  have hmem : c.method ∉ targetCommands := by simpa using hnt
  constructor <;> intro x <;>
    simp [ExtensionDebuggerTransport.send,
          ExtensionDebuggerTransport._delaySend, hmem, hm]

/-- C1 witness: the spec's Page.navigate scenario, success and failure. -/
theorem C1_forwarded_response_envelope_witness :
    demoTransport.send
        { id := 2, method := "Page.navigate",
          params := .obj [("url", .str "https://example.com")], sessionId := none }
        (.ok (.obj [("frameId", .str "F1")])) =
      [.deliverPaced (.resp
        { id := 2, method := "Page.navigate",
          params := .obj [("url", .str "https://example.com")], sessionId := none,
          error := none, result := some (.obj [("frameId", .str "F1")]) })] ∧
    demoTransport.send
        { id := 2, method := "Page.navigate",
          params := .obj [("url", .str "https://example.com")], sessionId := none }
        (.err (some "No tab with given id")) =
      [.deliverPaced (.resp
        { id := 2, method := "Page.navigate",
          params := .obj [("url", .str "https://example.com")], sessionId := none,
          error := some { message := some "No tab with given id" }, result := none })] :=
  ⟨(C1_forwarded_response_envelope demoTransport
      { id := 2, method := "Page.navigate",
        params := .obj [("url", .str "https://example.com")], sessionId := none }
      rfl rfl).1 _,
   (C1_forwarded_response_envelope demoTransport
      { id := 2, method := "Page.navigate",
        params := .obj [("url", .str "https://example.com")], sessionId := none }
      rfl rfl).2 _⟩

/-- C6: a host debugging-event notification from the adapter's own tab
is wrapped with the Session Identifier and delivered immediately
(unpaced) through the message callback; one from any other tab produces
no output at all — unconditionally, whether or not a callback is even
set. -/
theorem C6_host_event_relay (t : ExtensionDebuggerTransport)
    (tab : Option Nat) (method : String) (params : Json) :
    (t.onmessage = true → tab = t.target.tabId →
      t.onEventListener tab method params =
        [.deliverNow (.ev { method := method, params := params,
                            sessionId := some t.sessionId })]) ∧
    (tab ≠ t.target.tabId → t.onEventListener tab method params = []) := by
  constructor
  · intro hm h
    simp [ExtensionDebuggerTransport.onEventListener,
          ExtensionDebuggerTransport._emit, h, hm]
  · intro h
    simp [ExtensionDebuggerTransport.onEventListener, h]

/-- C6 witness: a Page.loadEventFired notification from tab 7 is
relayed immediately with the session stamp; one from tab 9 is dropped. -/
theorem C6_host_event_relay_witness :
    demoTransport.onEventListener (some 7) "Page.loadEventFired" (.obj []) =
      [.deliverNow (.ev { method := "Page.loadEventFired", params := .obj [],
                          sessionId := some "A1" })] ∧
    demoTransport.onEventListener (some 9) "Page.loadEventFired" (.obj []) = [] :=
  ⟨(C6_host_event_relay demoTransport (some 7) "Page.loadEventFired" (.obj [])).1 rfl rfl,
   (C6_host_event_relay demoTransport (some 9) "Page.loadEventFired" (.obj [])).2 (by decide)⟩

/-- C10: with the message callback unset, both `_emit` and `_delaySend`
are silent no-ops: no callback runs and the message is dropped (the
operations are pure functions of the unchanged adapter state, so no
state is modified and nothing is raised). -/
theorem C10_unset_onmessage_silent_drop (t : ExtensionDebuggerTransport)
    (hm : t.onmessage = false) (e : CDPEvent) (r : CDPCommandResponse) :
    t._emit e = [] ∧ t._delaySend r = [] := by
  simp [ExtensionDebuggerTransport._emit,
        ExtensionDebuggerTransport._delaySend, hm]

/-- C10 witness: the adapter with callbacks unset drops a relayed host
event and a paced response. -/
theorem C10_unset_onmessage_silent_drop_witness :
    (construct (_mapTarget demoTargetInfo))._emit
        { method := "Page.loadEventFired", params := .obj [], sessionId := some "A1" } = [] ∧
    (construct (_mapTarget demoTargetInfo))._delaySend
        (_baseResponse { id := 1, method := "Page.reload", params := .obj [], sessionId := none }) = [] :=
  C10_unset_onmessage_silent_drop (construct (_mapTarget demoTargetInfo)) rfl _ _

/-- Shape of every output of `send`: the scheduled deferred close, an
immediate event delivery, or a paced response that echoes the command's
id, method, params and sessionId and holds exactly one of
result/error. -/
theorem send_response_fields (t : ExtensionDebuggerTransport) (c : CDPCommand)
    (f : SendCommandResult) {o : Output} (h : o ∈ t.send c f) :
    o = .scheduleClose ∨ (∃ e, o = .deliverNow (.ev e)) ∨
    ∃ r, o = .deliverPaced (.resp r) ∧ r.id = c.id ∧ r.method = c.method ∧
      r.params = c.params ∧ r.sessionId = c.sessionId ∧
      (((∃ j, r.result = some j) ∧ r.error = none) ∨
        (r.result = none ∧ ∃ er, r.error = some er)) := by
  unfold ExtensionDebuggerTransport.send at h
  split at h
  · unfold ExtensionDebuggerTransport._handleTargetCommand at h
    split at h
    · rcases mem_delaySend_eq h with rfl
      exact .inr (.inr ⟨_, rfl, rfl, rfl, rfl, rfl, .inl ⟨⟨_, rfl⟩, rfl⟩⟩)
    · rcases List.mem_append.1 h with h | h
      · exact .inr (.inl ⟨_, mem_emit_eq h⟩)
      · rcases mem_delaySend_eq h with rfl
        exact .inr (.inr ⟨_, rfl, rfl, rfl, rfl, rfl, .inl ⟨⟨_, rfl⟩, rfl⟩⟩)
    · rcases List.mem_append.1 h with h | h
      · exact .inr (.inl ⟨_, mem_emit_eq h⟩)
      · rcases mem_delaySend_eq h with rfl
        exact .inr (.inr ⟨_, rfl, rfl, rfl, rfl, rfl, .inl ⟨⟨_, rfl⟩, rfl⟩⟩)
    · rcases mem_delaySend_eq h with rfl
      exact .inr (.inr ⟨_, rfl, rfl, rfl, rfl, rfl, .inl ⟨⟨_, rfl⟩, rfl⟩⟩)
    · rcases List.mem_append.1 h with h | h
      · simp only [List.mem_singleton] at h
        exact .inl h
      · rcases mem_delaySend_eq h with rfl
        exact .inr (.inr ⟨_, rfl, rfl, rfl, rfl, rfl, .inl ⟨⟨_, rfl⟩, rfl⟩⟩)
    · rcases mem_delaySend_eq h with rfl
      exact .inr (.inr ⟨_, rfl, rfl, rfl, rfl, rfl, .inl ⟨⟨_, rfl⟩, rfl⟩⟩)
  · split at h
    · rcases mem_delaySend_eq h with rfl
      exact .inr (.inr ⟨_, rfl, rfl, rfl, rfl, rfl, .inl ⟨⟨_, rfl⟩, rfl⟩⟩)
    · rcases mem_delaySend_eq h with rfl
      exact .inr (.inr ⟨_, rfl, rfl, rfl, rfl, rfl, .inr ⟨rfl, _, rfl⟩⟩)

/-- C2: every Response Envelope delivered by `send` — forwarded or
emulated — contains exactly one of `result` / `error`: never both,
never neither. -/
theorem C2_response_exactly_one_of_result_error (t : ExtensionDebuggerTransport)
    (c : CDPCommand) (f : SendCommandResult) (r : CDPCommandResponse)
    (h : Output.deliverPaced (Message.resp r) ∈ t.send c f ∨
         Output.deliverNow (Message.resp r) ∈ t.send c f) :
    ((∃ j, r.result = some j) ∧ r.error = none) ∨
      (r.result = none ∧ ∃ er, r.error = some er) := by
  rcases h with h | h <;>
    rcases send_response_fields t c f h with h' | ⟨e, h'⟩ | ⟨r', h', _, _, _, _, hone⟩
  · exact absurd h' (by simp)
  · exact absurd h' (by simp)
  · simp only [Output.deliverPaced.injEq, Message.resp.injEq] at h'
    subst h'
    exact hone
  · exact absurd h' (by simp)
  · exact absurd h' (by simp)
  · exact absurd h' (by simp)

/-- C2 witness: the emulated Target.getBrowserContexts response (result
present, error absent). -/
theorem C2_response_exactly_one_of_result_error_witness :
    ((∃ j, (CDPCommandResponse.mk 1 "Target.getBrowserContexts" (.obj []) none
        none (some (.obj [("browserContextIds", .arr [])]))).result = some j) ∧
      (CDPCommandResponse.mk 1 "Target.getBrowserContexts" (.obj []) none
        none (some (.obj [("browserContextIds", .arr [])]))).error = none) ∨
    ((CDPCommandResponse.mk 1 "Target.getBrowserContexts" (.obj []) none
        none (some (.obj [("browserContextIds", .arr [])]))).result = none ∧
      ∃ er, (CDPCommandResponse.mk 1 "Target.getBrowserContexts" (.obj []) none
        none (some (.obj [("browserContextIds", .arr [])]))).error = some er) :=
  C2_response_exactly_one_of_result_error demoTransport
    { id := 1, method := "Target.getBrowserContexts", params := .obj [], sessionId := none }
    (.ok .null) _
    (.inl (List.mem_singleton.mpr rfl))

/-- C3: each emulated Target command yields its fixed synthetic result,
echoing the request's id and method (and params/sessionId, which the
spread also copies): getBrowserContexts an empty browserContextIds
list, attachToTarget the Session Identifier plus one immediate
Target.attachedToTarget event with waitingForDebugger false,
activateTarget null, and closeTarget success true together with the
scheduling of the adapter's close after the pacing delay. -/
theorem C3_emulated_target_results (t : ExtensionDebuggerTransport)
    (c : CDPCommand) (f : SendCommandResult) (hm : t.onmessage = true) :
    (c.method = "Target.getBrowserContexts" → t.send c f =
      [.deliverPaced (.resp
        { id := c.id, method := c.method, params := c.params,
          sessionId := c.sessionId, error := none,
          result := some (.obj [("browserContextIds", .arr [])]) })]) ∧
    (c.method = "Target.attachToTarget" → t.send c f =
      [.deliverNow (.ev
        { method := "Target.attachedToTarget",
          params := .obj [("targetInfo", t.target.toJson),
                          ("sessionId", .str t.sessionId),
                          ("waitingForDebugger", .bool false)],
          sessionId := none }),
       .deliverPaced (.resp
        { id := c.id, method := c.method, params := c.params,
          sessionId := c.sessionId, error := none,
          result := some (.obj [("sessionId", .str t.sessionId)]) })]) ∧
    (c.method = "Target.activateTarget" → t.send c f =
      [.deliverPaced (.resp
        { id := c.id, method := c.method, params := c.params,
          sessionId := c.sessionId, error := none, result := some .null })]) ∧
    (c.method = "Target.closeTarget" → t.send c f =
      [.scheduleClose,
       .deliverPaced (.resp
        { id := c.id, method := c.method, params := c.params,
          sessionId := c.sessionId, error := none,
          result := some (.obj [("success", .bool true)]) })]) := by
  refine ⟨fun h => ?_, fun h => ?_, fun h => ?_, fun h => ?_⟩ <;>
    simp [ExtensionDebuggerTransport.send, h,
          ExtensionDebuggerTransport.targetCommands,
          ExtensionDebuggerTransport._handleTargetCommand,
          ExtensionDebuggerTransport._delaySend,
          ExtensionDebuggerTransport._emitTargetAttached,
          ExtensionDebuggerTransport._emit,
          ExtensionDebuggerTransport.attachedToTargetEvent,
          ExtensionDebuggerTransport._baseResponse, hm]

/-- C3 witness: the four emulated methods on the concrete adapter of
the spec scenario (session "A1"). -/
theorem C3_emulated_target_results_witness :
    demoTransport.send
        { id := 1, method := "Target.getBrowserContexts", params := .obj [], sessionId := none }
        (.ok .null) =
      [.deliverPaced (.resp
        { id := 1, method := "Target.getBrowserContexts", params := .obj [],
          sessionId := none, error := none,
          result := some (.obj [("browserContextIds", .arr [])]) })] ∧
    demoTransport.send
        { id := 3, method := "Target.attachToTarget", params := .obj [], sessionId := none }
        (.ok .null) =
      [.deliverNow (.ev
        { method := "Target.attachedToTarget",
          params := .obj [("targetInfo", demoTransport.target.toJson),
                          ("sessionId", .str "A1"),
                          ("waitingForDebugger", .bool false)],
          sessionId := none }),
       .deliverPaced (.resp
        { id := 3, method := "Target.attachToTarget", params := .obj [],
          sessionId := none, error := none,
          result := some (.obj [("sessionId", .str "A1")]) })] ∧
    demoTransport.send
        { id := 4, method := "Target.activateTarget", params := .obj [], sessionId := none }
        (.ok .null) =
      [.deliverPaced (.resp
        { id := 4, method := "Target.activateTarget", params := .obj [],
          sessionId := none, error := none, result := some .null })] ∧
    demoTransport.send
        { id := 5, method := "Target.closeTarget", params := .obj [], sessionId := none }
        (.ok .null) =
      [.scheduleClose,
       .deliverPaced (.resp
        { id := 5, method := "Target.closeTarget", params := .obj [],
          sessionId := none, error := none,
          result := some (.obj [("success", .bool true)]) })] :=
  ⟨(C3_emulated_target_results demoTransport
      { id := 1, method := "Target.getBrowserContexts", params := .obj [], sessionId := none }
      (.ok .null) rfl).1 rfl,
   (C3_emulated_target_results demoTransport
      { id := 3, method := "Target.attachToTarget", params := .obj [], sessionId := none }
      (.ok .null) rfl).2.1 rfl,
   (C3_emulated_target_results demoTransport
      { id := 4, method := "Target.activateTarget", params := .obj [], sessionId := none }
      (.ok .null) rfl).2.2.1 rfl,
   (C3_emulated_target_results demoTransport
      { id := 5, method := "Target.closeTarget", params := .obj [], sessionId := none }
      (.ok .null) rfl).2.2.2 rfl⟩

/-- C4: Target.setDiscoverTargets yields the command's own paced reply
with result null and exactly one synthetic Target.targetCreated event
whose params reference the adapter's Target Descriptor. -/
theorem C4_setDiscoverTargets_reply_and_event (t : ExtensionDebuggerTransport)
    (c : CDPCommand) (f : SendCommandResult) (hm : t.onmessage = true)
    (h : c.method = "Target.setDiscoverTargets") :
    t.send c f =
      [.deliverNow (.ev
        { method := "Target.targetCreated",
          params := .obj [("targetInfo", t.target.toJson)],
          sessionId := none }),
       .deliverPaced (.resp
        { id := c.id, method := c.method, params := c.params,
          sessionId := c.sessionId, error := none, result := some .null })] ∧
    countEventMethod "Target.targetCreated" (t.send c f) = 1 := by
  have hs : t.send c f =
      [.deliverNow (.ev
        { method := "Target.targetCreated",
          params := .obj [("targetInfo", t.target.toJson)],
          sessionId := none }),
       .deliverPaced (.resp
        { id := c.id, method := c.method, params := c.params,
          sessionId := c.sessionId, error := none, result := some .null })] := by
    simp [ExtensionDebuggerTransport.send, h,
          ExtensionDebuggerTransport.targetCommands,
          ExtensionDebuggerTransport._handleTargetCommand,
          ExtensionDebuggerTransport._delaySend,
          ExtensionDebuggerTransport._emitTargetCreated,
          ExtensionDebuggerTransport._emit,
          ExtensionDebuggerTransport.targetCreatedEvent,
          ExtensionDebuggerTransport._baseResponse, hm]
  refine ⟨hs, ?_⟩
  rw [hs]
  simp [countEventMethod, deliveredMessages, List.countP, List.countP.go]

/-- C4 witness: the spec scenario adapter answers setDiscoverTargets
with the reply and one targetCreated event. -/
theorem C4_setDiscoverTargets_reply_and_event_witness :
    demoTransport.send
        { id := 6, method := "Target.setDiscoverTargets", params := .obj [], sessionId := none }
        (.ok .null) =
      [.deliverNow (.ev
        { method := "Target.targetCreated",
          params := .obj [("targetInfo", demoTransport.target.toJson)],
          sessionId := none }),
       .deliverPaced (.resp
        { id := 6, method := "Target.setDiscoverTargets", params := .obj [],
          sessionId := none, error := none, result := some .null })] ∧
    countEventMethod "Target.targetCreated"
      (demoTransport.send
        { id := 6, method := "Target.setDiscoverTargets", params := .obj [], sessionId := none }
        (.ok .null)) = 1 :=
  C4_setDiscoverTargets_reply_and_event demoTransport
    { id := 6, method := "Target.setDiscoverTargets", params := .obj [], sessionId := none }
    (.ok .null) rfl rfl

/-- C5 counterexample: in the delivered output of a
Target.setDiscoverTargets command, the synthetic Target.targetCreated
event carries no top-level sessionId field at all (the adapter's
Session Identifier is "A1"), so not every outbound message is stamped
with the Session Identifier. -/
theorem C5_counterexample :
    ¬ ∀ m ∈ deliveredMessages (demoTransport.send
        { id := 1, method := "Target.setDiscoverTargets", params := .obj [], sessionId := none }
        (.ok .null)),
      messageSessionId m = some demoTransport.sessionId := by
  intro hall
  have hmem : Message.ev demoTransport.targetCreatedEvent ∈
      deliveredMessages (demoTransport.send
        { id := 1, method := "Target.setDiscoverTargets", params := .obj [], sessionId := none }
        (.ok .null)) := List.mem_cons_self _ _
  have hc := hall _ hmem
  simp [messageSessionId, ExtensionDebuggerTransport.targetCreatedEvent] at hc

/-- C5 amended: only host-relayed Event Envelopes carry a top-level
sessionId equal to the adapter's Session Identifier; the three
synthetic Target.* events carry none (attach/detach hold it inside
params only), and every Response Envelope merely echoes the request's
own sessionId field unchanged. -/
theorem C5_sessionId_stamping_amended (t : ExtensionDebuggerTransport)
    (c : CDPCommand) (f : SendCommandResult)
    (tab : Option Nat) (method : String) (params : Json) :
    (∀ e, Output.deliverNow (Message.ev e) ∈ t.onEventListener tab method params →
        e.sessionId = some t.sessionId) ∧
    t.targetCreatedEvent.sessionId = none ∧
    t.attachedToTargetEvent.sessionId = none ∧
    t.detachedFromTargetEvent.sessionId = none ∧
    (∀ r, Output.deliverPaced (Message.resp r) ∈ t.send c f →
        r.sessionId = c.sessionId) := by
  refine ⟨fun e he => ?_, rfl, rfl, rfl, fun r hr => ?_⟩
  · simp only [ExtensionDebuggerTransport.onEventListener] at he
    split at he
    · have h' := mem_emit_eq he
      simp only [Output.deliverNow.injEq, Message.ev.injEq] at h'
      subst h'
      rfl
    · exact absurd he (List.not_mem_nil _)
  · rcases send_response_fields t c f hr with h' | ⟨e, h'⟩ | ⟨r', h', _, _, _, hsid, _⟩
    · exact absurd h' (by simp)
    · exact absurd h' (by simp)
    · simp only [Output.deliverPaced.injEq, Message.resp.injEq] at h'
      subst h'
      exact hsid

/-- C5 amended witness: a relayed host event from tab 7 is stamped with
"A1". -/
theorem C5_sessionId_stamping_amended_witness :
    ({ method := "Page.loadEventFired", params := .obj [],
       sessionId := some "A1" } : CDPEvent).sessionId = some demoTransport.sessionId :=
  (C5_sessionId_stamping_amended demoTransport
      { id := 1, method := "Page.reload", params := .obj [], sessionId := none }
      (.ok .null) (some 7) "Page.loadEventFired" (.obj [])).1
    { method := "Page.loadEventFired", params := .obj [], sessionId := some "A1" }
    (List.mem_singleton.mpr rfl)

/-- C7 counterexample: after a Target.closeTarget command, the close it
scheduled (facade detach resolving) and one further explicit close
produce the Target.detachedFromTarget event twice and invoke the close
callback twice — there is no once-per-lifetime guard. -/
theorem C7_counterexample :
    countEventMethod "Target.detachedFromTarget" demoCloseTrace = 2 ∧
    countCloseNotify demoCloseTrace = 2 ∧
    ¬ countCloseNotify demoCloseTrace ≤ 1 := by
  have h2 : countCloseNotify demoCloseTrace = 2 := rfl
  exact ⟨rfl, h2, by rw [h2]; omega⟩

/-- C7 amended: a host detach notification for the attached target
produces exactly one Target.detachedFromTarget event followed by
exactly one close-callback invocation; but teardown is unguarded, so
every further trigger whose facade detach resolves (including an
explicit close after the one Target.closeTarget scheduled) emits the
detach event and invokes the close callback once more. -/
theorem C7_detach_teardown_amended (t : ExtensionDebuggerTransport)
    (hm : t.onmessage = true) (hc : t.onclose = true) :
    t.onDetachListener t.target.tabId =
      [.deliverNow (.ev t.detachedFromTargetEvent), .closeNotify] ∧
    countEventMethod "Target.detachedFromTarget"
      (t.onDetachListener t.target.tabId) = 1 ∧
    countCloseNotify (t.onDetachListener t.target.tabId) = 1 ∧
    t.close (.ok ()) =
      .ok [.deliverNow (.ev t.detachedFromTargetEvent), .closeNotify] := by
  have h1 : t.onDetachListener t.target.tabId =
      [.deliverNow (.ev t.detachedFromTargetEvent), .closeNotify] := by
    simp [ExtensionDebuggerTransport.onDetachListener,
          ExtensionDebuggerTransport._closeTarget,
          ExtensionDebuggerTransport._emitTargetDetached,
          ExtensionDebuggerTransport._emit, hm, hc]
  refine ⟨h1, ?_, ?_, ?_⟩
  · rw [h1]
    simp [countEventMethod, deliveredMessages,
          ExtensionDebuggerTransport.detachedFromTargetEvent,
          List.countP, List.countP.go]
  · rw [h1]
    simp [countCloseNotify, List.countP, List.countP.go]
  · simp [ExtensionDebuggerTransport.close,
          ExtensionDebuggerTransport._closeTarget,
          ExtensionDebuggerTransport._emitTargetDetached,
          ExtensionDebuggerTransport._emit, hm, hc]

/-- C7 amended witness: the host detaching tab 7 of the spec scenario
adapter. -/
theorem C7_detach_teardown_amended_witness :
    demoTransport.onDetachListener demoTransport.target.tabId =
      [.deliverNow (.ev demoTransport.detachedFromTargetEvent), .closeNotify] ∧
    countEventMethod "Target.detachedFromTarget"
      (demoTransport.onDetachListener demoTransport.target.tabId) = 1 ∧
    countCloseNotify (demoTransport.onDetachListener demoTransport.target.tabId) = 1 ∧
    demoTransport.close (.ok ()) =
      .ok [.deliverNow (.ev demoTransport.detachedFromTargetEvent), .closeNotify] :=
  C7_detach_teardown_amended demoTransport rfl rfl

/-- C8 counterexample: a close whose facade detach rejects (as on an
already-detached target) does throw: the rejection propagates
unmodified out of close and teardown produces no outputs, instead of
being swallowed. -/
theorem C8_counterexample :
    demoTransport.close (.error "Debugger is not attached to the tab with given id") =
      .error "Debugger is not attached to the tab with given id" ∧
    ¬ ∃ outs, demoTransport.close
        (.error "Debugger is not attached to the tab with given id") = .ok outs := by
  refine ⟨rfl, ?_⟩
  rintro ⟨outs, h⟩
  simp [ExtensionDebuggerTransport.close] at h

/-- C8 amended: close does not swallow a facade detach failure — it
propagates the failure unmodified and skips teardown on that call;
teardown (the detach event plus close callback of _closeTarget) runs
exactly when detach resolves. -/
theorem C8_close_propagates_amended (t : ExtensionDebuggerTransport) (e : String) :
    t.close (.error e) = .error e ∧ t.close (.ok ()) = .ok t._closeTarget :=
  ⟨rfl, rfl⟩

/-- C9: create propagates a facade attach failure unmodified with no
retry; with attach resolved it fails with the target-not-found error
when no facade target entry has both the matching tabId and
attached=true, and when the filtered list starts with such an entry the
constructed adapter's Session Identifier is that entry's id and its
descriptor has canAccessOpener forced false. -/
theorem C9_create_attach_and_lookup (attachResult : Except String Unit)
    (targets : List TargetInfo) (tabId : Nat) :
    (∀ e, attachResult = .error e → create attachResult targets tabId = .error e) ∧
    (attachResult = .ok () →
      (((targets.filter fun tg => tg.attached && tg.tabId == some tabId) = []) →
          create attachResult targets tabId = .error "target not found") ∧
      (∀ tg rest,
          (targets.filter fun tg => tg.attached && tg.tabId == some tabId) = tg :: rest →
          create attachResult targets tabId = .ok (construct (_mapTarget tg)) ∧
          (construct (_mapTarget tg)).sessionId = tg.id ∧
          (construct (_mapTarget tg)).target.canAccessOpener = false)) := by
  refine ⟨fun e he => ?_, fun ha => ⟨fun hfil => ?_, fun tg rest hfil => ?_⟩⟩
  · subst he
    rfl
  · subst ha
    simp [ExtensionDebuggerTransport.create,
          ExtensionDebuggerTransport._getTargetInfo, hfil]
  · subst ha
    refine ⟨?_, rfl, rfl⟩
    simp [ExtensionDebuggerTransport.create,
          ExtensionDebuggerTransport._getTargetInfo, hfil]

/-- C9 witness: denied attach propagates; an empty target list yields
"target not found"; the spec scenario list yields session "A1" with
canAccessOpener false. -/
theorem C9_create_attach_and_lookup_witness :
    create (.error "Cannot attach to this target") [demoTargetInfo] 7 =
      .error "Cannot attach to this target" ∧
    create (.ok ()) [] 7 = .error "target not found" ∧
    create (.ok ()) [demoTargetInfo] 7 = .ok (construct (_mapTarget demoTargetInfo)) ∧
    (construct (_mapTarget demoTargetInfo)).sessionId = "A1" ∧
    (construct (_mapTarget demoTargetInfo)).target.canAccessOpener = false :=
  ⟨(C9_create_attach_and_lookup (.error "Cannot attach to this target")
      [demoTargetInfo] 7).1 _ rfl,
   ((C9_create_attach_and_lookup (.ok ()) [] 7).2 rfl).1 rfl,
   ((C9_create_attach_and_lookup (.ok ()) [demoTargetInfo] 7).2 rfl).2
      demoTargetInfo [] rfl |>.1,
   ((C9_create_attach_and_lookup (.ok ()) [demoTargetInfo] 7).2 rfl).2
      demoTargetInfo [] rfl |>.2.1,
   ((C9_create_attach_and_lookup (.ok ()) [demoTargetInfo] 7).2 rfl).2
      demoTargetInfo [] rfl |>.2.2⟩
